import Mathlib

/-!
Verification of the query-orchestration pipeline of the tongji_rag backend
(`backend/app/pipelines.py`, `backend/app/components.py`) against its
natural-language specification.

Python floats are modelled as rationals (`ℚ`); Python strings as Lean
`String` (both sequences of Unicode code points, so `len`/membership agree);
Python's stable `list.sort(key=score, reverse=True)` as a stable insertion
sort on the relation `scoreGe`; external collaborators (jieba segmentation,
the Milvus client, Redis, the LLM) as explicit function parameters (oracles).
A Python generator that is consumed to completion is modelled as the list of
chunks it yields together with an optional terminal exception.
-/

namespace TongjiRag

/-- Metadata dictionary attached to a retrieved document.  `VectorRetriever.search`
always populates these four keys (missing entity fields default to the empty
string, mirroring `entity.get(k, "")`). -/
structure Metadata where
  is_faq : Bool
  answer : String
  dept_id : String
  user_id : String
deriving DecidableEq

/-- Document DTO of `app/dto.py`: `{id, content, score, source, metadata}`. -/
structure Document where
  id : String
  content : String
  score : ℚ
  source : String
  metadata : Metadata
deriving DecidableEq

/-- UserContext DTO of `app/dto.py`.  In the source `user_id` is a required `str`
(`not user.user_id` is true exactly on the empty string) while `dept_id` is
`Optional[str]` (falsy when `None` or empty). -/
structure UserContext where
  user_id : String
  user_name : String
  user_role : String
  dept_id : Option String
deriving DecidableEq

/-- RewrittenQuery DTO of `app/dto.py`. -/
structure RewrittenQuery where
  original_text : String
  rewritten_text : String
deriving DecidableEq

/-- One persisted chat turn (`role`, `content`), as stored by `HistoryManager`. -/
structure ChatTurn where
  role : String
  content : String
deriving DecidableEq

/-- Collection names from `app/config.py` `Settings`. -/
def COLLECTION_FAQ : String := "rag_faq"

def COLLECTION_STANDARD : String := "rag_standard"

def COLLECTION_KNOWLEDGE : String := "rag_knowledge"

def COLLECTION_INTERNAL : String := "rag_internal"

def COLLECTION_PERSONAL : String := "rag_person_info"

/-- Threshold `PublicPipeline.FAQ_THRESHOLD = 0.8`. -/
def FAQ_THRESHOLD : ℚ := 8/10

/-- Weight `WEIGHT_VECTOR = 0.6` in `BasePipeline._keyword_rerank`. -/
def WEIGHT_VECTOR : ℚ := 6/10

/-- Weight `WEIGHT_KEYWORD = 0.4` in `BasePipeline._keyword_rerank`. -/
def WEIGHT_KEYWORD : ℚ := 4/10

/-- Does `pat` occur at the start of `s`?  (Helper for Python's `in` on strings.) -/
def matchAt (pat s : List Char) : Bool :=
  match pat, s with
  | [], _ => true
  | _ :: _, [] => false
  | a :: as, b :: bs => a == b && matchAt as bs

/-- Does `pat` occur contiguously somewhere in `s`?  (Python `pat in s`.) -/
def containsSub (pat : List Char) (s : List Char) : Bool :=
  match s with
  | [] => pat.isEmpty
  | c :: rest => matchAt pat (c :: rest) || containsSub pat rest

/-- Python `kw in content` on strings: substring test over code points. -/
def isSubstr (kw content : String) : Bool :=
  containsSub kw.data content.data

/-- Keyword extraction
`keywords = set(k for k in jieba.lcut_for_search(query) if len(k) > 1)`.
The jieba segmentation is an external collaborator, passed as the oracle
`seg`; the Python `set` is modelled by `dedup` (only the count of distinct
keywords and membership are ever used). -/
def extractKeywords (seg : String → List String) (query : String) : List String :=
  ((seg query).filter (fun k => decide (1 < k.length))).dedup

/-- Lexical coverage `keyword_score = hit_count / len(keywords)`: fraction of distinct extracted
keywords occurring as a substring of `content`. -/
def coverage (keywords : List String) (content : String) : ℚ :=
  ((keywords.filter (fun kw => isSubstr kw content)).length : ℚ) /
    (keywords.length : ℚ)

/-- Lines 75–84 of `pipelines.py`: `score_range = max_s - min_s if max_s != min_s
else 1.0`; `norm_vec_score = (doc.score - min_s) / score_range`. -/
def minMaxNorm (min_s max_s s : ℚ) : ℚ :=
  (s - min_s) / (if max_s ≠ min_s then max_s - min_s else 1)

/-- The per-document re-scoring of `_keyword_rerank`:
`doc.score = 0.6 * norm_vec_score + 0.4 * keyword_score`. -/
def rescore (keywords : List String) (min_s max_s : ℚ) (doc : Document) : Document :=
  { doc with score :=
      WEIGHT_VECTOR * minMaxNorm min_s max_s doc.score +
      WEIGHT_KEYWORD * coverage keywords doc.content }

/-- Descending-by-score order used by `docs.sort(key=lambda x: x.score, reverse=True)`. -/
def scoreGe (a b : Document) : Prop := b.score ≤ a.score

instance : DecidableRel scoreGe :=
  fun a b => inferInstanceAs (Decidable (b.score ≤ a.score))

instance : IsTotal Document scoreGe := ⟨fun a b => le_total b.score a.score⟩

instance : IsTrans Document scoreGe := ⟨fun _ _ _ hab hbc => le_trans hbc hab⟩

/-- Python's `list.sort(key=lambda x: x.score, reverse=True)`: a stable sort
into descending score order, modelled by stable insertion sort. -/
def sortDesc (docs : List Document) : List Document :=
  List.insertionSort scoreGe docs

/-- Fusion, `BasePipeline._keyword_rerank(query, docs, final_k)` (`fuse` in the spec):
empty input gives `[]`; empty keyword set gives `docs[:final_k]` unchanged;
otherwise min-max normalize, blend 60/40 with keyword coverage, sort
descending and truncate to `final_k`. -/
def keyword_rerank (seg : String → List String) (query : String)
    (docs : List Document) (final_k : Nat) : List Document :=
  match docs with
  | [] => []
  | d :: ds =>
    let keywords := extractKeywords seg query
    if keywords = [] then (d :: ds).take final_k
    else
      let min_s := List.foldl min d.score (ds.map (·.score))
      let max_s := List.foldl max d.score (ds.map (·.score))
      (sortDesc ((d :: ds).map (rescore keywords min_s max_s))).take final_k

/-- Raw entity payload of one Milvus hit; each field is present or absent
(`entity.get`).  The schemas used by the source carry `question`/`answer`/
`source` (FAQ collections) or `text`/`source`/`dept_id`/`user_id` (RAG
collections). -/
structure Entity where
  question : Option String
  answer : Option String
  text : Option String
  source : Option String
  dept_id : Option String
  user_id : Option String
deriving DecidableEq

/-- One hit returned by `MilvusClient.search`: `{id, distance, entity}`. -/
structure RawHit where
  id : String
  distance : ℚ
  entity : Entity
deriving DecidableEq

/-- One invocation of `VectorRetriever.search` (collections, `top_k`, filter
expression), recorded so that theorems can state which searches a strategy
performed. -/
structure SearchCall where
  collections : List String
  top_k : Nat
  filters : String
deriving DecidableEq

/-- Lines 258–279 of `components.py`: build a `Document` from a raw hit.
`is_faq = "answer" in entity and entity["answer"]`; `content` is the stored
question for FAQ-style hits, the stored passage otherwise; `source` defaults
to the collection name; metadata fields default to `""`. -/
def hitToDoc (colName : String) (hit : RawHit) : Document :=
  let e := hit.entity
  let is_faq : Bool := match e.answer with
    | some a => !a.isEmpty
    | none => false
  { id := hit.id
    content := if is_faq then e.question.getD "" else e.text.getD ""
    score := hit.distance
    source := e.source.getD colName
    metadata :=
      { is_faq := is_faq
        answer := e.answer.getD ""
        dept_id := e.dept_id.getD ""
        user_id := e.user_id.getD "" } }

/-- The per-collection loop of `VectorRetriever.search`: query each named
collection and append its hits.  The Milvus client is the oracle `milvus`;
`none` models a collection that does not exist or whose query raised (both
are skipped and contribute zero candidates). -/
def flattenHits (milvus : String → Nat → String → Option (List RawHit))
    (top_k : Nat) (filters : String) : List String → List Document
  | [] => []
  | col :: rest =>
    (match milvus col top_k filters with
     | none => []
     | some hits => hits.map (hitToDoc col)) ++ flattenHits milvus top_k filters rest

/-- Model of `VectorRetriever.search(query_text, collections, top_k, filters)`:
flatten all per-collection hits, sort descending by raw similarity, truncate
to `top_k` in total (`all_results.sort(...); return all_results[:top_k]`). -/
def search (milvus : String → Nat → String → Option (List RawHit))
    (collections : List String) (top_k : Nat) (filters : String) : List Document :=
  (sortDesc (flattenHits milvus top_k filters collections)).take top_k

/-- Model of `LLMGenerator.rewrite_query(history, current)`.  The external LLM chain
invocation is the oracle `callResult` (`some t` = the chain returned `t`,
`none` = the chain raised and the `except` branch ran).  Returns the
`RewrittenQuery` together with whether the external call was made at all. -/
def rewrite_query (callResult : Option String) (history : List ChatTurn)
    (current : String) : RewrittenQuery × Bool :=
  match history with
  | [] => (⟨current, current⟩, false)
  | _ :: _ =>
    match callResult with
    | some t => (⟨current, t⟩, true)
    | none => (⟨current, current⟩, true)

/-- Filter built by `InternalPipeline._retrieve_strategy`:
`"dept_id == 'unknown'"` when `not user.dept_id` (absent or empty),
else `"dept_id == '<dept>'"`. -/
def deptFilter (user : UserContext) : String :=
  match user.dept_id with
  | none => "dept_id == \x27unknown\x27"
  | some d => if d = "" then "dept_id == \x27unknown\x27"
              else "dept_id == \x27" ++ d ++ "\x27"

/-- Filter built by `PersonalPipeline._retrieve_strategy`: `"user_id == '<uid>'"`. -/
def userFilter (uid : String) : String :=
  "user_id == \x27" ++ uid ++ "\x27"

/-- Outcome of a tier's `_retrieve_strategy`: either the retrieved documents
or a raised policy error, together with the `VectorRetriever.search` calls it
performed, in order. -/
def StrategyResult : Type :=
  Except String (List Document) × List SearchCall

/-- Model of `PersonalPipeline._retrieve_strategy`: raise `ValueError("User ID
required")` when `not user.user_id` (empty), before any search; otherwise
search `rag_person_info` (`top_k=10`) with the mandatory `user_id` filter and
rerank to `final_k=5`. -/
def personalRetrieve (milvus : String → Nat → String → Option (List RawHit))
    (seg : String → List String) (query : String) (user : UserContext) :
    StrategyResult :=
  if user.user_id = "" then (Except.error "User ID required", [])
  else
    let call : SearchCall := ⟨[COLLECTION_PERSONAL], 10, userFilter user.user_id⟩
    (Except.ok (keyword_rerank seg query
        (search milvus call.collections call.top_k call.filters) 5),
     [call])

/-- Model of `InternalPipeline._retrieve_strategy`: search standard+knowledge
(`top_k=10`, no filter) and internal notices (`top_k=10`, dept filter —
falling back to `dept_id == 'unknown'` when the user carries no dept),
concatenate, rerank to `final_k=5`.  Never raises. -/
def internalRetrieve (milvus : String → Nat → String → Option (List RawHit))
    (seg : String → List String) (query : String) (user : UserContext) :
    StrategyResult :=
  let callPub : SearchCall := ⟨[COLLECTION_STANDARD, COLLECTION_KNOWLEDGE], 10, ""⟩
  let callInt : SearchCall := ⟨[COLLECTION_INTERNAL], 10, deptFilter user⟩
  let docs_public := search milvus callPub.collections callPub.top_k callPub.filters
  let docs_internal := search milvus callInt.collections callInt.top_k callInt.filters
  (Except.ok (keyword_rerank seg query (docs_public ++ docs_internal) 5),
   [callPub, callInt])

/-- Model of `PublicPipeline._retrieve_strategy`: recall 15 from `rag_standard`,
rerank to `final_k=4`. -/
def publicRetrieveStrategy (milvus : String → Nat → String → Option (List RawHit))
    (seg : String → List String) (query : String) : List Document :=
  keyword_rerank seg query (search milvus [COLLECTION_STANDARD] 15 "") 4

/-- A synthesis generator consumed to completion: the chunks it yielded, and
`some e` when it terminated by raising exception text `e` mid-stream
(`AnswerSynthesizer.stream` is finite and fails by raising). -/
structure SynthStream where
  chunks : List String
  error : Option String
deriving DecidableEq

/-- The accumulation loop shared by both `execute` bodies:
`full_answer += chunk; yield chunk` for each chunk, and on a raised `e` the
formatted error text is both yielded and appended.  Returns (yielded chunks,
`full_answer`). -/
def streamConsume (st : SynthStream) (errFmt : String → String) :
    List String × String :=
  let full := st.chunks.foldl (fun acc c => acc ++ c) ""
  match st.error with
  | none => (st.chunks, full)
  | some e => (st.chunks ++ [errFmt e], full ++ errFmt e)

/-- Observable outcome of one pipeline execution consumed to completion:
chunks yielded to the caller, the user turn and assistant turn appended to
history, and how many times `generate_answer` was invoked. -/
structure ExecResult where
  yielded : List String
  userTurn : String
  aiTurn : String
  synthCalls : Nat
deriving DecidableEq

/-- Model of `BasePipeline.execute` consumed to completion, for an execution whose
`_retrieve_strategy` returned `docs`: rewrite, append the raw user turn,
stream `generate_answer` accumulating `full_answer` (converting a mid-stream
exception into the visible chunk `"生成出错: " ++ e`), then append
`full_answer` as the assistant turn. -/
def baseExecute (hist : List ChatTurn) (rewriteCall : Option String)
    (query : String) (docs : List Document)
    (synth : String → List Document → SynthStream) : ExecResult :=
  let rq := (rewrite_query rewriteCall hist query).1
  let st := synth rq.rewritten_text docs
  let p := streamConsume st (fun e => "生成出错: " ++ e)
  { yielded := p.1, userTurn := query, aiTurn := p.2, synthCalls := 1 }

/-- The RAG tail of `PublicPipeline.execute` (runs when the FAQ
short-circuit does not fire); its error chunk is formatted `"Error: " ++ e`. -/
def publicRagTail (milvus : String → Nat → String → Option (List RawHit))
    (seg : String → List String) (rewritten query : String)
    (synth : String → List Document → SynthStream) : ExecResult :=
  let docs := publicRetrieveStrategy milvus seg rewritten
  let st := synth rewritten docs
  let p := streamConsume st (fun e => "Error: " ++ e)
  { yielded := p.1, userTurn := query, aiTurn := p.2, synthCalls := 1 }

/-- Model of `PublicPipeline.execute` consumed to completion: rewrite, append user
turn, search the FAQ collection with `top_k=1`; if the best hit scores
`≥ FAQ_THRESHOLD` and carries a non-empty `answer`, yield exactly
`"【官方回答】\n" ++ answer`, persist it, and return without calling the
synthesizer; otherwise run the ordinary RAG tail. -/
def publicExecute (milvus : String → Nat → String → Option (List RawHit))
    (seg : String → List String) (hist : List ChatTurn)
    (rewriteCall : Option String) (query : String)
    (synth : String → List Document → SynthStream) : ExecResult :=
  let rq := (rewrite_query rewriteCall hist query).1
  match search milvus [COLLECTION_FAQ] 1 "" with
  | [] => publicRagTail milvus seg rq.rewritten_text query synth
  | f :: _ =>
    if FAQ_THRESHOLD ≤ f.score then
      if f.metadata.answer ≠ "" then
        let final_output := "【官方回答】\n" ++ f.metadata.answer
        { yielded := [final_output], userTurn := query,
          aiTurn := final_output, synthCalls := 0 }
      else publicRagTail milvus seg rq.rewritten_text query synth
    else publicRagTail milvus seg rq.rewritten_text query synth

/-! ### Concrete inputs used by counterexamples and witnesses -/

/-- Segmentation oracle yielding the two keywords "ka" and "kb". -/
def c7Seg : String → List String := fun _ => ["ka", "kb"]

def c7Doc1 : Document := ⟨"1", "xx", 9/10, "s", ⟨false, "", "", ""⟩⟩

def c7Doc2 : Document := ⟨"2", "ka kb", 5/10, "s", ⟨false, "", "", ""⟩⟩

def c7Doc3 : Document := ⟨"3", "ka", 1/10, "s", ⟨false, "", "", ""⟩⟩

/-- Segmentation oracle yielding only tokens of length ≤ 1 code point. -/
def c8Seg : String → List String := fun _ => ["a", "信"]

def c8Doc1 : Document := ⟨"1", "aa", 9/10, "s", ⟨false, "", "", ""⟩⟩

def c8Doc2 : Document := ⟨"2", "bb", 5/10, "s", ⟨false, "", "", ""⟩⟩

/-- Segmentation oracle yielding the single keyword "hi". -/
def c2Seg : String → List String := fun _ => ["hi"]

/-- Segmentation oracle yielding no tokens at all. -/
def c2SegEmpty : String → List String := fun _ => []

def c2DocA : Document := ⟨"A", "xx", 1, "s", ⟨false, "", "", ""⟩⟩

def c2DocB : Document := ⟨"B", "hi", 3/10, "s", ⟨false, "", "", ""⟩⟩

def c2DocC : Document := ⟨"C", "yy", 0, "s", ⟨false, "", "", ""⟩⟩

/-- Segmentation oracle yielding the single keyword "kw". -/
def c1Seg : String → List String := fun _ => ["kw"]

def c1DocE : Document := ⟨"E", "aa", 5/10, "s", ⟨false, "", "", ""⟩⟩

def c1DocF : Document := ⟨"F", "bb", 5/10, "s", ⟨false, "", "", ""⟩⟩

/-- The first output document of fusing `[c1DocE, c1DocF]`: its score became
`0`, not the `0.6 = 0.6 × 1.0 + 0.4 × 0` the claim would predict. -/
def c1DocE0 : Document := ⟨"E", "aa", 0, "s", ⟨false, "", "", ""⟩⟩

/-- Milvus oracle for which every collection is missing (skipped). -/
def c3Milvus : String → Nat → String → Option (List RawHit) := fun _ _ _ => none

def c3Seg : String → List String := fun _ => []

/-- An internal-tier user whose context carries no `dept_id`. -/
def c3User : UserContext := ⟨"u1", "name", "teacher", none⟩

def c4Milvus : String → Nat → String → Option (List RawHit) := fun _ _ _ => none

def c4Seg : String → List String := fun _ => []

/-- A personal-tier user whose context carries no usable `user_id`
(`user_id` is a required `str` in the DTO; absence is the empty string). -/
def c4UserNoId : UserContext := ⟨"", "name", "student", none⟩

def c4UserWithId : UserContext := ⟨"u9", "name", "student", none⟩

/-- Milvus oracle returning a single FAQ hit with similarity `0.85` and
answer "A" for every collection. -/
def c5Milvus : String → Nat → String → Option (List RawHit) :=
  fun _ _ _ => some [⟨"h1", 85/100, ⟨some "Q?", some "A", none, some "faq", none, none⟩⟩]

def c5Seg : String → List String := fun _ => []

def c5Synth : String → List Document → SynthStream := fun _ _ => ⟨[], none⟩

/-- The `Document` that `search c5Milvus [COLLECTION_FAQ] 1 ""` returns. -/
def c5Doc : Document := ⟨"h1", "Q?", 85/100, "faq", ⟨true, "A", "", ""⟩⟩

/-! ### Helper lemmas -/

theorem extractKeywords_eq_nil (seg : String → List String) (q : String)
    (h : ∀ t ∈ seg q, t.length ≤ 1) : extractKeywords seg q = [] := by
  unfold extractKeywords
  have hf : (seg q).filter (fun k => decide (1 < k.length)) = [] := by
    rw [List.filter_eq_nil_iff]
    intro a ha
    simpa using h a ha
  rw [hf]
  rfl

theorem keyword_rerank_no_keywords (seg : String → List String) (q : String)
    (h : extractKeywords seg q = []) (docs : List Document) (k : Nat) :
    keyword_rerank seg q docs k = docs.take k := by
  cases docs with
  | nil => rw [List.take_nil]; rfl
  | cons d ds =>
    simp only [keyword_rerank, h]
    rfl

theorem foldl_min_const {s : ℚ} {l : List ℚ} (h : ∀ x ∈ l, x = s) :
    l.foldl min s = s := by
  induction l with
  | nil => rfl
  | cons x xs ih =>
    have hx := h x (List.mem_cons_self x xs)
    rw [List.foldl_cons, hx, min_self]
    exact ih (fun y hy => h y (List.mem_cons_of_mem x hy))

theorem foldl_max_const {s : ℚ} {l : List ℚ} (h : ∀ x ∈ l, x = s) :
    l.foldl max s = s := by
  induction l with
  | nil => rfl
  | cons x xs ih =>
    have hx := h x (List.mem_cons_self x xs)
    rw [List.foldl_cons, hx, max_self]
    exact ih (fun y hy => h y (List.mem_cons_of_mem x hy))

theorem minMaxNorm_self (s : ℚ) : minMaxNorm s s s = 0 := by
  simp [minMaxNorm]

theorem streamConsume_snd_eq_join (st : SynthStream) (fmt : String → String) :
    (streamConsume st fmt).2 = String.join (streamConsume st fmt).1 := by
  cases herr : st.error with
  | none => simp only [streamConsume, herr]; rfl
  | some e =>
    simp only [streamConsume, herr]
    simp [String.join, List.foldl_append]

theorem publicRagTail_persists_join
    (milvus : String → Nat → String → Option (List RawHit))
    (seg : String → List String) (rewritten query : String)
    (synth : String → List Document → SynthStream) :
    (publicRagTail milvus seg rewritten query synth).aiTurn =
      String.join (publicRagTail milvus seg rewritten query synth).yielded :=
  streamConsume_snd_eq_join _ _

/-! ### Claim theorems -/

/-- C7: given candidates with raw similarity scores `[0.9, 0.5, 0.1]` and
keyword coverages `[0.0, 1.0, 0.5]`, fuse normalizes the similarities to
`[1.0, 0.5, 0.0]`, blends `0.6 × normalized + 0.4 × coverage` into fused
scores `[0.6, 0.7, 0.2]`, and returns candidate #2, then #1, then #3. -/
theorem fuse_worked_example :
    minMaxNorm (1/10) (9/10) c7Doc1.score = 1 ∧
    minMaxNorm (1/10) (9/10) c7Doc2.score = 1/2 ∧
    minMaxNorm (1/10) (9/10) c7Doc3.score = 0 ∧
    coverage (extractKeywords c7Seg "qq") c7Doc1.content = 0 ∧
    coverage (extractKeywords c7Seg "qq") c7Doc2.content = 1 ∧
    coverage (extractKeywords c7Seg "qq") c7Doc3.content = 1/2 ∧
    keyword_rerank c7Seg "qq" [c7Doc1, c7Doc2, c7Doc3] 3 =
      [{ c7Doc2 with score := 7/10 }, { c7Doc1 with score := 6/10 },
       { c7Doc3 with score := 2/10 }] := by
  refine ⟨?_, ?_, ?_, ?_, ?_, ?_, ?_⟩ <;> with_unfolding_all decide

/-- C8: when the search-oriented segmentation of the query yields no token
longer than one code point, fuse returns exactly the first `final_k` input
candidates in input order, scores untouched. -/
theorem fuse_no_keywords_identity (seg : String → List String) (q : String)
    (docs : List Document) (k : Nat)
    (h : ∀ t ∈ seg q, t.length ≤ 1) :
    keyword_rerank seg q docs k = docs.take k :=
  keyword_rerank_no_keywords seg q (extractKeywords_eq_nil seg q h) docs k

theorem fuse_no_keywords_identity_witness :
    keyword_rerank c8Seg "query" [c8Doc1, c8Doc2] 1 =
      List.take 1 [c8Doc1, c8Doc2] :=
  fuse_no_keywords_identity c8Seg "query" [c8Doc1, c8Doc2] 1 (by decide)

/-- C9: the query rewrite always degrades to the raw query — with an empty
recency window the rewritten query is the raw query and no external call is
made (flag `false`); when the external call raises (`callResult = none`) the
error is caught and the rewritten query is again the raw query. -/
theorem rewrite_degrades_to_raw (callResult : Option String)
    (history : List ChatTurn) (current : String) :
    (history = [] →
      rewrite_query callResult history current = (⟨current, current⟩, false)) ∧
    (callResult = none →
      rewrite_query callResult history current =
        (⟨current, current⟩, !history.isEmpty)) := by
  constructor
  · intro h; subst h; rfl
  · intro h; subst h; cases history <;> rfl

theorem rewrite_degrades_to_raw_witness :
    rewrite_query (some "rewritten") [] "raw" = (⟨"raw", "raw"⟩, false) ∧
    rewrite_query none [⟨"user", "m"⟩] "raw" = (⟨"raw", "raw"⟩, true) :=
  ⟨(rewrite_degrades_to_raw (some "rewritten") [] "raw").1 rfl,
   (rewrite_degrades_to_raw none [⟨"user", "m"⟩] "raw").2 rfl⟩

/-- C10: `VectorRetriever.search` over any list of collections returns the
flattened per-collection hits sorted descending by raw similarity and
truncated to `top_k` in total (not per collection); the result therefore has
at most `top_k` documents and is sorted descending. -/
theorem search_truncates_total
    (milvus : String → Nat → String → Option (List RawHit))
    (collections : List String) (top_k : Nat) (filters : String) :
    search milvus collections top_k filters =
      (sortDesc (flattenHits milvus top_k filters collections)).take top_k ∧
    (search milvus collections top_k filters).length ≤ top_k ∧
    List.Sorted scoreGe (search milvus collections top_k filters) := by
  refine ⟨rfl, List.length_take_le _ _, ?_⟩
  exact List.Pairwise.sublist (List.take_sublist _ _)
    (List.sorted_insertionSort scoreGe _)

/-- C2 fails on the code: re-running fuse on its own (sorted, truncated)
output re-normalizes the already-fused scores, which can reorder documents.
Concretely, fuse orders the batch A, B, C, but fusing that output again with
the same query and `final_k` yields B, A, C. -/
theorem fuse_not_idempotent_cex :
    (keyword_rerank c2Seg "hi" [c2DocA, c2DocB, c2DocC] 3).map (fun d => d.id) =
      ["A", "B", "C"] ∧
    (keyword_rerank c2Seg "hi"
        (keyword_rerank c2Seg "hi" [c2DocA, c2DocB, c2DocC] 3) 3).map
        (fun d => d.id) =
      ["B", "A", "C"] := by
  constructor <;> with_unfolding_all decide

/-- C2 (amended): fuse is idempotent when the extracted keyword set is
empty — both runs return the first `final_k` candidates unchanged; with a
non-empty keyword set re-running fuse may reorder its own output. -/
theorem fuse_idempotent_no_keywords (seg : String → List String) (q : String)
    (docs : List Document) (k : Nat)
    (h : extractKeywords seg q = []) :
    keyword_rerank seg q (keyword_rerank seg q docs k) k =
      keyword_rerank seg q docs k := by
  rw [keyword_rerank_no_keywords seg q h, keyword_rerank_no_keywords seg q h,
    List.take_take, min_self]

theorem fuse_idempotent_no_keywords_witness :
    keyword_rerank c2SegEmpty "q" (keyword_rerank c2SegEmpty "q" [c2DocA] 3) 3 =
      keyword_rerank c2SegEmpty "q" [c2DocA] 3 :=
  fuse_idempotent_no_keywords c2SegEmpty "q" [c2DocA] 3 (by decide)

/-- C1 fails on the code: when every candidate has the same raw score the
code substitutes `score_range = 1.0`, so the normalized similarity is
`(s - s) / 1 = 0.0` for every candidate — not `1.0` as claimed.  Concretely,
fusing two candidates of equal raw score `0.5` and zero keyword coverage
yields fused scores `[0, 0]` rather than the `[0.6, 0.6]` the claim implies. -/
theorem fuse_equal_scores_norm_not_one :
    minMaxNorm (5/10) (5/10) (5/10) = 0 ∧
    minMaxNorm (5/10) (5/10) (5/10) ≠ 1 ∧
    (keyword_rerank c1Seg "q" [c1DocE, c1DocF] 2).map (fun d => d.score) =
      [0, 0] ∧
    (keyword_rerank c1Seg "q" [c1DocE, c1DocF] 2).map (fun d => d.score) ≠
      [WEIGHT_VECTOR * 1 + WEIGHT_KEYWORD * 0,
       WEIGHT_VECTOR * 1 + WEIGHT_KEYWORD * 0] := by
  refine ⟨?_, ?_, ?_, ?_⟩ <;> with_unfolding_all decide

/-- C1 (amended): when the extracted keyword set is non-empty and every
candidate in the batch has the same raw score, the min-max normalized
similarity of every candidate is `0.0` (the code avoids division by zero by
substituting `score_range = 1.0`), so every fused score reduces to
`0.4 × keyword coverage`. -/
theorem fuse_equal_scores_norm_zero (seg : String → List String) (q : String)
    (docs : List Document) (k : Nat) (s : ℚ)
    (hkw : extractKeywords seg q ≠ [])
    (hs : ∀ d ∈ docs, d.score = s) :
    ∀ d' ∈ keyword_rerank seg q docs k,
      d'.score = WEIGHT_KEYWORD * coverage (extractKeywords seg q) d'.content := by
  intro d' hd'
  cases docs with
  | nil => simp [keyword_rerank] at hd'
  | cons d ds =>
    have hd0 : d.score = s := hs d (List.mem_cons_self d ds)
    have hall : ∀ x ∈ ds.map (·.score), x = s := by
      intro x hx
      obtain ⟨e, he, rfl⟩ := List.mem_map.mp hx
      exact hs e (List.mem_cons_of_mem d he)
    have hmin : List.foldl min d.score (ds.map (·.score)) = s := by
      rw [hd0]; exact foldl_min_const hall
    have hmax : List.foldl max d.score (ds.map (·.score)) = s := by
      rw [hd0]; exact foldl_max_const hall
    simp only [keyword_rerank] at hd'
    rw [if_neg hkw, hmin, hmax] at hd'
    have h1 : d' ∈ sortDesc (List.map (rescore (extractKeywords seg q) s s) (d :: ds)) :=
      List.take_subset k _ hd'
    have h2 : d' ∈ List.map (rescore (extractKeywords seg q) s s) (d :: ds) :=
      (List.perm_insertionSort scoreGe _).mem_iff.mp h1
    obtain ⟨e, he, rfl⟩ := List.mem_map.mp h2
    have hes : e.score = s := hs e he
    simp [rescore, hes, minMaxNorm_self]

theorem fuse_equal_scores_norm_zero_witness :
    c1DocE0.score =
      WEIGHT_KEYWORD * coverage (extractKeywords c1Seg "q") c1DocE0.content :=
  fuse_equal_scores_norm_zero c1Seg "q" [c1DocE, c1DocF] 2 (5/10)
    (by with_unfolding_all decide) (by with_unfolding_all decide)
    c1DocE0 (by with_unfolding_all decide)

/-- C3 fails on the code: an internal-tier request with no `dept_id` is NOT
rejected — `InternalPipeline._retrieve_strategy` substitutes the fallback
filter `dept_id == 'unknown'`, executes both searches, and returns normally
(`Except.ok`, with two recorded search calls) instead of raising. -/
theorem internal_no_dept_not_rejected_cex :
    internalRetrieve c3Milvus c3Seg "q" c3User =
      (Except.ok [],
       [⟨[COLLECTION_STANDARD, COLLECTION_KNOWLEDGE], 10, ""⟩,
        ⟨[COLLECTION_INTERNAL], 10, "dept_id == \x27unknown\x27"⟩]) := by
  with_unfolding_all rfl

/-- C3 (amended): the internal tier never raises on a missing `dept_id`; it
always executes its two searches, the internal-notices search always carries
a department filter, and when `dept_id` is absent that filter is bound to
the fallback `dept_id == 'unknown'` rather than the request being rejected. -/
theorem internal_dept_fallback
    (milvus : String → Nat → String → Option (List RawHit))
    (seg : String → List String) (q : String) (user : UserContext) :
    (internalRetrieve milvus seg q user).1 =
      Except.ok (keyword_rerank seg q
        (search milvus [COLLECTION_STANDARD, COLLECTION_KNOWLEDGE] 10 "" ++
         search milvus [COLLECTION_INTERNAL] 10 (deptFilter user)) 5) ∧
    (internalRetrieve milvus seg q user).2 =
      [⟨[COLLECTION_STANDARD, COLLECTION_KNOWLEDGE], 10, ""⟩,
       ⟨[COLLECTION_INTERNAL], 10, deptFilter user⟩] ∧
    (user.dept_id = none → deptFilter user = "dept_id == \x27unknown\x27") := by
  refine ⟨rfl, rfl, ?_⟩
  intro h
  simp [deptFilter, h]

theorem internal_dept_fallback_witness :
    (internalRetrieve c3Milvus c3Seg "q" c3User).2 =
      [⟨[COLLECTION_STANDARD, COLLECTION_KNOWLEDGE], 10, ""⟩,
       ⟨[COLLECTION_INTERNAL], 10, deptFilter c3User⟩] ∧
    deptFilter c3User = "dept_id == \x27unknown\x27" :=
  ⟨(internal_dept_fallback c3Milvus c3Seg "q" c3User).2.1,
   (internal_dept_fallback c3Milvus c3Seg "q" c3User).2.2 rfl⟩

/-- C4: personal-tier retrieval with an absent `user_id` raises
`ValueError("User ID required")` before any `VectorRetriever.search` call
(the recorded call list is empty); with a `user_id` present, exactly one
search is executed and it carries the mandatory filter
`user_id == '<user.user_id>'`. -/
theorem personal_requires_user_id
    (milvus : String → Nat → String → Option (List RawHit))
    (seg : String → List String) (q : String) (user : UserContext) :
    (user.user_id = "" →
      personalRetrieve milvus seg q user = (Except.error "User ID required", [])) ∧
    (user.user_id ≠ "" →
      (personalRetrieve milvus seg q user).2 =
        [⟨[COLLECTION_PERSONAL], 10, userFilter user.user_id⟩] ∧
      (personalRetrieve milvus seg q user).1 =
        Except.ok (keyword_rerank seg q
          (search milvus [COLLECTION_PERSONAL] 10 (userFilter user.user_id)) 5)) := by
  constructor
  · intro h
    simp [personalRetrieve, h]
  · intro h
    simp [personalRetrieve, h]

theorem personal_requires_user_id_witness :
    personalRetrieve c4Milvus c4Seg "q" c4UserNoId =
      (Except.error "User ID required", []) ∧
    (personalRetrieve c4Milvus c4Seg "q" c4UserWithId).2 =
      [⟨[COLLECTION_PERSONAL], 10, userFilter "u9"⟩] :=
  ⟨(personal_requires_user_id c4Milvus c4Seg "q" c4UserNoId).1 rfl,
   ((personal_requires_user_id c4Milvus c4Seg "q" c4UserWithId).2
     (by decide)).1⟩

/-- C5: whenever the single best FAQ hit scores at least the threshold `0.8`
and carries a non-empty `answer` in its metadata, `PublicPipeline.execute`
yields exactly one chunk — the canonical answer behind the authoritative
prefix `【官方回答】` — persists that same text as the assistant turn, and
makes zero calls to the synthesizer. -/
theorem public_faq_short_circuit
    (milvus : String → Nat → String → Option (List RawHit))
    (seg : String → List String) (hist : List ChatTurn)
    (rc : Option String) (q : String)
    (synth : String → List Document → SynthStream)
    (f : Document) (rest : List Document)
    (hsearch : search milvus [COLLECTION_FAQ] 1 "" = f :: rest)
    (hscore : FAQ_THRESHOLD ≤ f.score)
    (hans : f.metadata.answer ≠ "") :
    publicExecute milvus seg hist rc q synth =
      { yielded := ["【官方回答】\n" ++ f.metadata.answer], userTurn := q,
        aiTurn := "【官方回答】\n" ++ f.metadata.answer, synthCalls := 0 } := by
  unfold publicExecute
  rw [hsearch]
  simp [hscore, hans]

theorem public_faq_short_circuit_witness :
    publicExecute c5Milvus c5Seg [] none "q" c5Synth =
      { yielded := ["【官方回答】\n" ++ c5Doc.metadata.answer], userTurn := "q",
        aiTurn := "【官方回答】\n" ++ c5Doc.metadata.answer, synthCalls := 0 } :=
  public_faq_short_circuit c5Milvus c5Seg [] none "q" c5Synth c5Doc []
    (by with_unfolding_all decide) (by with_unfolding_all decide) (by decide)

/-- C6: for every pipeline execution consumed to completion, the string
persisted as the assistant turn equals the concatenation, in order, of all
chunks yielded to the caller — for `BasePipeline.execute` and
`PublicPipeline.execute` alike, whether synthesis succeeds or a mid-stream
exception is converted into a visible error chunk (which is then part of
both the yielded chunks and the persisted string). -/
theorem persisted_equals_yielded_concat
    (hist : List ChatTurn) (rc : Option String) (q : String)
    (docs : List Document) (synth : String → List Document → SynthStream)
    (milvus : String → Nat → String → Option (List RawHit))
    (seg : String → List String) :
    (baseExecute hist rc q docs synth).aiTurn =
      String.join (baseExecute hist rc q docs synth).yielded ∧
    (publicExecute milvus seg hist rc q synth).aiTurn =
      String.join (publicExecute milvus seg hist rc q synth).yielded := by
  constructor
  · exact streamConsume_snd_eq_join _ _
  · unfold publicExecute
    cases search milvus [COLLECTION_FAQ] 1 "" with
    | nil => exact publicRagTail_persists_join _ _ _ _ _
    | cons f rest =>
      by_cases h1 : FAQ_THRESHOLD ≤ f.score
      · by_cases h2 : f.metadata.answer ≠ ""
        · simp only [if_pos h1, if_pos h2]
          simp [String.join]
        · simp only [if_pos h1, if_neg h2]
          exact publicRagTail_persists_join _ _ _ _ _
      · simp only [if_neg h1]
        exact publicRagTail_persists_join _ _ _ _ _

end TongjiRag
